import Mathlib

set_option maxRecDepth 20000

/-!
Verification of the validation-failure message formatter in
`smithy-typescript-ssdk-libs/server-common/src/validation/index.ts`
and of the sensitive-map codegen test fixture
`smithy-typescript-codegen/.../test-sensitive-member-pointing-to-map.smithy`.

The TypeScript tagged union `ValidationFailure` is embedded as an inductive
type; the two exported formatting functions are translated directly from the
source.  JavaScript template-literal rendering conventions are made explicit:
a `number` renders via its decimal form, `undefined` renders as the text
"undefined", and an array renders as its elements joined by commas
(`Array.prototype.toString`).  Numeric values are embedded as `Int`; the
`Array.any` payload of a uniqueItems failure is embedded as `List Int`,
the element type every claim exercises.  Since TypeScript array indexing on
an empty array yields `undefined` and the subsequent member access throws,
the summary generator is embedded as an `Option`-returning function that is
`none` exactly when indexing the first element fails.
-/

/-- The `ValidationFailure` closed tagged union from the source, one
constructor per `constraintType` value.  `length` and `range` carry the
`constraintValues` pair `[min, max]` in which either bound may be
`undefined` (`Option.none`); the `required` variant carries no
`failureValue` (the source class only stores `memberName`). -/
inductive ValidationFailure where
  | enum (memberName : String) (constraintValues : List String) (failureValue : String)
  | length (memberName : String) (constraintValues : Option Int × Option Int) (failureValue : Int)
  | pattern (memberName : String) (constraintValues : String) (failureValue : String)
  | range (memberName : String) (constraintValues : Option Int × Option Int) (failureValue : Int)
  | required (memberName : String)
  | uniqueItems (memberName : String) (failureValue : List Int)
deriving DecidableEq, Repr

/-- The `memberName` field, present on every variant. -/
def ValidationFailure.memberName : ValidationFailure → String
  | .enum n _ _ => n
  | .length n _ _ => n
  | .pattern n _ _ => n
  | .range n _ _ => n
  | .required n => n
  | .uniqueItems n _ => n

/-- JavaScript template-literal rendering of a `number | undefined` bound:
`undefined` interpolates as the text "undefined". -/
def renderBound : Option Int → String
  | none => "undefined"
  | some n => toString n

/-- Translation of `generateValidationMessage` from the source.  The
`failureValue` text is "null" for a required failure and otherwise the
JavaScript `toString` of the stored value (decimal form for numbers,
comma-joined elements for the uniqueItems array).  The prefix/suffix pair
follows the source `switch` on `constraintType`, including the
`min === undefined` check taken before the `max === undefined` check in the
length and range branches. -/
def generateValidationMessage (failure : ValidationFailure) : String :=
  let failureValue : String :=
    match failure with
    | .required _ => "null"
    | .enum _ _ v => v
    | .length _ _ v => toString v
    | .pattern _ _ v => v
    | .range _ _ v => toString v
    | .uniqueItems _ v => String.intercalate "," (v.map toString)
  let ps : String × String :=
    match failure with
    | .required _ => ("Value", "must not be null")
    | .enum _ cvs _ => ("Value", "must satisfy enum value set: " ++ String.intercalate "," cvs)
    | .length _ (mn, mx) _ =>
      ("Value with length",
        match mn with
        | none => "must have length less than or equal to " ++ renderBound mx
        | some mnv =>
          match mx with
          | none => "must have length greater than or equal to " ++ toString mnv
          | some mxv =>
            "must have length between " ++ toString mnv ++ " and " ++ toString mxv ++ ", inclusive")
    | .pattern _ cvs _ => ("Value", "must satisfy regular expression pattern: " ++ cvs)
    | .range _ (mn, mx) _ =>
      ("Value",
        match mn with
        | none => "must be less than or equal to " ++ renderBound mx
        | some mnv =>
          match mx with
          | none => "must be greater than or equal to " ++ toString mnv
          | some mxv =>
            "must be between " ++ toString mnv ++ " and " ++ toString mxv ++ ", inclusive")
    | .uniqueItems _ _ => ("Value with repeated values", "must have unique values")
  ps.1 ++ " " ++ failureValue ++ " failed to satisfy constraint: Member " ++ ps.2

/-- `new Set(failures.map(f => f.memberName)).size`: the number of distinct
member names across the failures. -/
def distinctMembers (failures : List ValidationFailure) : Nat :=
  (failures.map ValidationFailure.memberName).dedup.length

/-- Translation of `generateValidationSummary` from the source, building the
message by the same sequence of string appends.  `failures[0].memberName` on
an empty array dereferences `undefined` and throws, so the embedding returns
`Option String`, `none` exactly in that case. -/
def generateValidationSummary (failures : List ValidationFailure) : Option String :=
  let failingMembers := distinctMembers failures
  let message :=
    toString failures.length ++ " validation error" ++
      (if failures.length > 1 then "s" else "") ++ " "
  let message :=
    if failures.length > 1 then
      message ++ ("across " ++ toString failingMembers ++ " " ++
        "member" ++ (if failingMembers > 1 then "s" else "") ++ " ")
    else message
  let message := message ++ "detected. "
  match failures.head? with
  | none => none
  | some first =>
    some (message ++ ("Member \x27" ++ first.memberName ++ "\x27 failed: " ++
      generateValidationMessage first ++ "."))

/-- The leading clause of the summary (count clause, optional
distinct-member clause, "detected. "), as a function of the failure count
and the distinct-member count only. -/
def summaryLead (count distinct : Nat) : String :=
  (if count > 1 then
    toString count ++ " validation error" ++ (if count > 1 then "s" else "") ++ " " ++
      ("across " ++ toString distinct ++ " " ++
        "member" ++ (if distinct > 1 then "s" else "") ++ " ")
  else
    toString count ++ " validation error" ++ (if count > 1 then "s" else "") ++ " ") ++
  "detected. "

/-- The final clause of the summary, a function of the first failure only. -/
def summaryFinal (f : ValidationFailure) : String :=
  "Member \x27" ++ f.memberName ++ "\x27 failed: " ++ generateValidationMessage f ++ "."

/-- The sensitive-map codegen fixture file, byte for byte (259 bytes, no
trailing newline). -/
def sensitiveMapFixture : String :=
  "namespace smithy.example\n\n" ++
  "service Example \x7b\n    version: \"1.0.0\",\n    operations: [GetFoo]\n\x7d\n\n" ++
  "operation GetFoo \x7b\n    input: GetFooInput\n\x7d\n\n" ++
  "structure GetFooInput \x7b\n    @sensitive\n    sensitiveFoo: NamesMap\n\x7d\n\n" ++
  "map NamesMap \x7b\n    key: String,\n    value: String\n\x7d"

/-- Modelled from the spec: the literal IDL text displayed in the
specification for the sensitive-map fixture (spec section 6), transcribed
line by line from its code block. -/
def specFixtureText : String :=
  String.intercalate "\n" [
    "namespace smithy.example",
    "",
    "service Example \x7b",
    "    version: \"1.0.0\",",
    "    operations: [GetFoo]",
    "\x7d",
    "",
    "operation GetFoo \x7b",
    "    input: GetFooInput",
    "\x7d",
    "",
    "structure GetFooInput \x7b",
    "    @sensitive",
    "    sensitiveFoo: NamesMap",
    "\x7d",
    "",
    "map NamesMap \x7b",
    "    key: String,",
    "    value: String",
    "\x7d"]

/-- String append is associative (component lists concatenate). -/
theorem sappend_assoc (a b c : String) : a ++ b ++ c = a ++ (b ++ c) := by
  rcases a with ⟨a⟩
  rcases b with ⟨b⟩
  rcases c with ⟨c⟩
  show String.mk (a ++ b ++ c) = String.mk (a ++ (b ++ c))
  rw [List.append_assoc]

/-- On a non-empty list the summary splits into the leading clause (a
function of the count and the distinct-member count) followed by the final
clause (a function of the first failure only). -/
theorem summary_cons (f : ValidationFailure) (rest : List ValidationFailure) :
    generateValidationSummary (f :: rest) =
      some (summaryLead (f :: rest).length (distinctMembers (f :: rest)) ++ summaryFinal f) := rfl

/-- C1: on every non-empty failure sequence, generateValidationSummary
returns exactly the concatenation of the count clause (with plural s iff
count exceeds one), the across clause (present iff count exceeds one, with
plural s iff the distinct-member count exceeds one), the text
"detected. ", and the final clause naming the first failure and its
generateValidationMessage text.  In particular a single failure on member
bar yields the singular form with no across clause, and three failures on
members a, a, b yield a summary starting with the plural
three-errors-across-two-members form. -/
theorem summary_exact_concatenation :
    (∀ (f : ValidationFailure) (rest : List ValidationFailure),
      generateValidationSummary (f :: rest) =
        some (summaryLead (f :: rest).length (distinctMembers (f :: rest)) ++ summaryFinal f))
    ∧ generateValidationSummary [.required "bar"] =
        some ("1 validation error detected. Member \x27bar\x27 failed: " ++
          generateValidationMessage (.required "bar") ++ ".")
    ∧ generateValidationSummary
          [.required "a", .pattern "a" "^[a-z]+$" "AB12", .required "b"] =
        some ("3 validation errors across 2 members detected. " ++
          ("Member \x27a\x27 failed: " ++ generateValidationMessage (.required "a") ++ ".")) := by
  refine ⟨fun f rest => rfl, by rfl, by rfl⟩

/-- C2: appending further failures after the first changes only the leading
clause of the summary, which reflects the full extended length and the full
extended distinct-member set, while the final clause is a function of the
first failure alone. -/
theorem summary_append_after_first (f : ValidationFailure) (rest extra : List ValidationFailure) :
    generateValidationSummary (f :: (rest ++ extra)) =
      some (summaryLead (rest.length + extra.length + 1)
        (distinctMembers (f :: (rest ++ extra))) ++ summaryFinal f) := by
  have h := summary_cons f (rest ++ extra)
  simpa [List.length_append] using h

/-- C3: every Required failure renders to the fixed sentence with the
literal text null as the rendered value, whatever the member name. -/
theorem required_message_exact (name : String) :
    generateValidationMessage (.required name) =
      "Value null failed to satisfy constraint: Member must not be null" := rfl

/-- C4: a Length failure uses the prefix Value with length, and the suffix
is chosen by bound presence: both bounds give the between-inclusive form,
an absent min gives the less-than-or-equal form on max, an absent max gives
the greater-than-or-equal form on min. -/
theorem length_message_cases (name : String) (v mn mx : Int) :
    generateValidationMessage (.length name (some mn, some mx) v) =
      "Value with length " ++ toString v ++
        " failed to satisfy constraint: Member must have length between " ++
        toString mn ++ " and " ++ toString mx ++ ", inclusive"
    ∧ generateValidationMessage (.length name (none, some mx) v) =
      "Value with length " ++ toString v ++
        " failed to satisfy constraint: Member must have length less than or equal to " ++
        toString mx
    ∧ generateValidationMessage (.length name (some mn, none) v) =
      "Value with length " ++ toString v ++
        " failed to satisfy constraint: Member must have length greater than or equal to " ++
        toString mn := by
  refine ⟨?_, ?_, ?_⟩
  · have e : generateValidationMessage (.length name (some mn, some mx) v) =
        "Value with length" ++ " " ++ toString v ++ " failed to satisfy constraint: Member " ++
          ("must have length between " ++ toString mn ++ " and " ++ toString mx ++ ", inclusive") := rfl
    rw [e,
      show ("Value with length " : String) = "Value with length" ++ " " from rfl,
      show (" failed to satisfy constraint: Member must have length between " : String) =
        " failed to satisfy constraint: Member " ++ "must have length between " from rfl]
    simp only [sappend_assoc]
  · have e : generateValidationMessage (.length name (none, some mx) v) =
        "Value with length" ++ " " ++ toString v ++ " failed to satisfy constraint: Member " ++
          ("must have length less than or equal to " ++ toString mx) := rfl
    rw [e,
      show ("Value with length " : String) = "Value with length" ++ " " from rfl,
      show (" failed to satisfy constraint: Member must have length less than or equal to " : String) =
        " failed to satisfy constraint: Member " ++ "must have length less than or equal to " from rfl]
    simp only [sappend_assoc]
  · have e : generateValidationMessage (.length name (some mn, none) v) =
        "Value with length" ++ " " ++ toString v ++ " failed to satisfy constraint: Member " ++
          ("must have length greater than or equal to " ++ toString mn) := rfl
    rw [e,
      show ("Value with length " : String) = "Value with length" ++ " " from rfl,
      show (" failed to satisfy constraint: Member must have length greater than or equal to " : String) =
        " failed to satisfy constraint: Member " ++ "must have length greater than or equal to " from rfl]
    simp only [sappend_assoc]

/-- C5: a Range failure uses the prefix Value, and the suffix is chosen by
bound presence exactly as for Length but with the must-be phrasing. -/
theorem range_message_cases (name : String) (v mn mx : Int) :
    generateValidationMessage (.range name (some mn, some mx) v) =
      "Value " ++ toString v ++ " failed to satisfy constraint: Member must be between " ++
        toString mn ++ " and " ++ toString mx ++ ", inclusive"
    ∧ generateValidationMessage (.range name (none, some mx) v) =
      "Value " ++ toString v ++
        " failed to satisfy constraint: Member must be less than or equal to " ++ toString mx
    ∧ generateValidationMessage (.range name (some mn, none) v) =
      "Value " ++ toString v ++
        " failed to satisfy constraint: Member must be greater than or equal to " ++ toString mn := by
  refine ⟨?_, ?_, ?_⟩
  · have e : generateValidationMessage (.range name (some mn, some mx) v) =
        "Value" ++ " " ++ toString v ++ " failed to satisfy constraint: Member " ++
          ("must be between " ++ toString mn ++ " and " ++ toString mx ++ ", inclusive") := rfl
    rw [e,
      show ("Value " : String) = "Value" ++ " " from rfl,
      show (" failed to satisfy constraint: Member must be between " : String) =
        " failed to satisfy constraint: Member " ++ "must be between " from rfl]
    simp only [sappend_assoc]
  · have e : generateValidationMessage (.range name (none, some mx) v) =
        "Value" ++ " " ++ toString v ++ " failed to satisfy constraint: Member " ++
          ("must be less than or equal to " ++ toString mx) := rfl
    rw [e,
      show ("Value " : String) = "Value" ++ " " from rfl,
      show (" failed to satisfy constraint: Member must be less than or equal to " : String) =
        " failed to satisfy constraint: Member " ++ "must be less than or equal to " from rfl]
    simp only [sappend_assoc]
  · have e : generateValidationMessage (.range name (some mn, none) v) =
        "Value" ++ " " ++ toString v ++ " failed to satisfy constraint: Member " ++
          ("must be greater than or equal to " ++ toString mn) := rfl
    rw [e,
      show ("Value " : String) = "Value" ++ " " from rfl,
      show (" failed to satisfy constraint: Member must be greater than or equal to " : String) =
        " failed to satisfy constraint: Member " ++ "must be greater than or equal to " from rfl]
    simp only [sappend_assoc]

/-- C6: an Enum failure renders the supplied value and the comma-joined
allowed values with no brackets; the color example gives the exact
sentence from the spec. -/
theorem enum_message_exact (name v : String) (cvs : List String) :
    generateValidationMessage (.enum name cvs v) =
      "Value " ++ v ++ " failed to satisfy constraint: Member must satisfy enum value set: " ++
        String.intercalate "," cvs
    ∧ generateValidationMessage (.enum "color" ["red", "green", "blue"] "purple") =
      "Value purple failed to satisfy constraint: Member must satisfy enum value set: red,green,blue" := by
  refine ⟨?_, rfl⟩
  have e : generateValidationMessage (.enum name cvs v) =
      "Value" ++ " " ++ v ++ " failed to satisfy constraint: Member " ++
        ("must satisfy enum value set: " ++ String.intercalate "," cvs) := rfl
  rw [e,
    show ("Value " : String) = "Value" ++ " " from rfl,
    show (" failed to satisfy constraint: Member must satisfy enum value set: " : String) =
      " failed to satisfy constraint: Member " ++ "must satisfy enum value set: " from rfl]
  simp only [sappend_assoc]

/-- C7 counterexample: the message for a UniqueItems failure with value
1,2,2,3 is not the claimed sentence starting with just Value, because the
prefix in the source is Value with repeated values. -/
theorem uniqueItems_claim_false :
    ¬ generateValidationMessage (.uniqueItems "items" [1, 2, 2, 3]) =
      "Value 1,2,2,3 failed to satisfy constraint: Member must have unique values" := by
  decide

/-- C7 amended: a UniqueItems failure renders the array comma-joined with
repeats kept after the prefix Value with repeated values; for value
1,2,2,3 the exact sentence therefore begins Value with repeated values
1,2,2,3. -/
theorem uniqueItems_message_exact (name : String) (fv : List Int) :
    generateValidationMessage (.uniqueItems name fv) =
      "Value with repeated values " ++ String.intercalate "," (fv.map toString) ++
        " failed to satisfy constraint: Member must have unique values"
    ∧ generateValidationMessage (.uniqueItems "items" [1, 2, 2, 3]) =
      "Value with repeated values 1,2,2,3 failed to satisfy constraint: Member must have unique values" := by
  refine ⟨?_, by decide⟩
  have e : generateValidationMessage (.uniqueItems name fv) =
      "Value with repeated values" ++ " " ++ String.intercalate "," (fv.map toString) ++
        " failed to satisfy constraint: Member " ++ "must have unique values" := rfl
  rw [e,
    show ("Value with repeated values " : String) = "Value with repeated values" ++ " " from rfl,
    show (" failed to satisfy constraint: Member must have unique values" : String) =
      " failed to satisfy constraint: Member " ++ "must have unique values" from rfl]
  simp only [sappend_assoc]

/-- C8: the summary generator reads the first element unconditionally, so
in the Option-valued embedding it fails to return a summary string exactly
on the empty sequence. -/
theorem summary_none_iff_empty (failures : List ValidationFailure) :
    generateValidationSummary failures = none ↔ failures = [] := by
  cases failures with
  | nil => exact iff_of_true rfl rfl
  | cons f rest =>
    apply iff_of_false
    · rw [summary_cons]
      exact fun h => Option.noConfusion h
    · exact fun h => List.noConfusion h

/-- C9: the sensitive-map fixture file content equals, byte for byte, the
literal IDL text displayed in the spec (259 bytes, one namespace, one
service, one operation, one single-member structure with the sensitivity
annotation, one string-to-string map). -/
theorem fixture_matches_spec_text :
    sensitiveMapFixture = specFixtureText ∧ sensitiveMapFixture.length = 259 :=
  ⟨rfl, rfl⟩

/-- C10: when the min bound is absent the less-than-or-equal branch is
taken whatever the max bound is, so a failure with both bounds absent still
returns normally, rendering the absent max as the text undefined, for both
the Length and the Range variants. -/
theorem min_absent_branch_priority (name : String) (v : Int) :
    (∀ mx : Option Int,
      generateValidationMessage (.length name (none, mx) v) =
        "Value with length " ++ toString v ++
          " failed to satisfy constraint: Member must have length less than or equal to " ++
          renderBound mx)
    ∧ generateValidationMessage (.length name (none, none) v) =
        "Value with length " ++ toString v ++
          " failed to satisfy constraint: Member must have length less than or equal to undefined"
    ∧ (∀ mx : Option Int,
      generateValidationMessage (.range name (none, mx) v) =
        "Value " ++ toString v ++
          " failed to satisfy constraint: Member must be less than or equal to " ++ renderBound mx)
    ∧ generateValidationMessage (.range name (none, none) v) =
        "Value " ++ toString v ++
          " failed to satisfy constraint: Member must be less than or equal to undefined" := by
  refine ⟨fun mx => ?_, ?_, fun mx => ?_, ?_⟩
  · have e : generateValidationMessage (.length name (none, mx) v) =
        "Value with length" ++ " " ++ toString v ++ " failed to satisfy constraint: Member " ++
          ("must have length less than or equal to " ++ renderBound mx) := rfl
    rw [e,
      show ("Value with length " : String) = "Value with length" ++ " " from rfl,
      show (" failed to satisfy constraint: Member must have length less than or equal to " : String) =
        " failed to satisfy constraint: Member " ++ "must have length less than or equal to " from rfl]
    simp only [sappend_assoc]
  · have e : generateValidationMessage (.length name (none, none) v) =
        "Value with length" ++ " " ++ toString v ++ " failed to satisfy constraint: Member " ++
          ("must have length less than or equal to " ++ "undefined") := rfl
    rw [e,
      show ("Value with length " : String) = "Value with length" ++ " " from rfl,
      show (" failed to satisfy constraint: Member must have length less than or equal to undefined" : String) =
        " failed to satisfy constraint: Member " ++
          ("must have length less than or equal to " ++ "undefined") from rfl]
    simp only [sappend_assoc]
  · have e : generateValidationMessage (.range name (none, mx) v) =
        "Value" ++ " " ++ toString v ++ " failed to satisfy constraint: Member " ++
          ("must be less than or equal to " ++ renderBound mx) := rfl
    rw [e,
      show ("Value " : String) = "Value" ++ " " from rfl,
      show (" failed to satisfy constraint: Member must be less than or equal to " : String) =
        " failed to satisfy constraint: Member " ++ "must be less than or equal to " from rfl]
    simp only [sappend_assoc]
  · have e : generateValidationMessage (.range name (none, none) v) =
        "Value" ++ " " ++ toString v ++ " failed to satisfy constraint: Member " ++
          ("must be less than or equal to " ++ "undefined") := rfl
    rw [e,
      show ("Value " : String) = "Value" ++ " " from rfl,
      show (" failed to satisfy constraint: Member must be less than or equal to undefined" : String) =
        " failed to satisfy constraint: Member " ++
          ("must be less than or equal to " ++ "undefined") from rfl]
    simp only [sappend_assoc]
